import Mathlib

/-!
Verification of the caching policy layer (server.js).

A shallow embedding of the five cache-consistency strategies implemented in
`src/server.js` of the repository: cache-aside, read-through, write-through,
write-behind and TTL-based expiration, over a MongoDB persistent store and a
Redis cache.

Modelling decisions, all traceable to the source:

* A MongoDB ObjectId is represented by its canonical 24-hex-character string
  (what `insertedId.toString()` produces and what `new ObjectId(id)` parses).
  `new ObjectId(id)` throws exactly when `id` is not a syntactically valid
  ObjectId string, which is what `isValidObjectId` decides.
* Driver-generated ObjectIds (`new ObjectId()` in write-behind, and the id the
  driver assigns in `insertOne`) are random values with no structural relation
  to each other; they enter the model as explicit parameters of the operations.
* The Redis cache is an association list from cache keys to entries; an entry
  carries a payload and an optional absolute expiration instant.  A serialized
  payload is either the faithful serialization of a document (`Payload.ok`) or
  a corrupt string that `JSON.parse` rejects (`Payload.corrupt`); `JSON.parse`
  of a corrupt payload throws, which the embedding reports as `Except.error`.
* Adapter failures that a claim is about are injected through an `Env` record:
  `insertFails` makes `insertOne` reject (`PersistenceFailure`), `setFails`
  makes the cache `set` reject.  Lookups are modelled as total, matching the
  spec's reading of the lookup algorithm.
* Each operation additionally returns the list of persistent-store operations
  it attempted (`StoreOp`), so frame claims ("at most one lookup", "no write")
  are stated about an explicit effect log.
-/

/-- An application payload ("reading") without an identifier: the request body
of the write paths, `req.body` in the source.  `sensorId` is the one field the
source inspects (the fallback lookup); all other fields are opaque. -/
structure Body where
  sensorId : Option String
  fields : List (String × Int)
deriving DecidableEq, Repr

/-- A document as stored in MongoDB or cached in Redis: an identifier `_id`
(the 24-hex string form of an ObjectId) together with the body fields. -/
structure StoredDoc where
  _id : String
  sensorId : Option String
  fields : List (String × Int)
deriving DecidableEq, Repr

/-- Merge an identifier with a request body: `{ _id: id, ...body }`. -/
def mkDoc (id : String) (b : Body) : StoredDoc :=
  ⟨id, b.sensorId, b.fields⟩

/-- Strip the identifier from a document: `const { _id, ...rest } = doc`. -/
def stripId (d : StoredDoc) : Body :=
  ⟨d.sensorId, d.fields⟩

/-- A cached value: either the faithful serialization of a document, or a
corrupt payload that `JSON.parse` rejects with a `SyntaxError`. -/
inductive Payload where
  | ok (d : StoredDoc)
  | corrupt
deriving DecidableEq, Repr

/-- A Redis entry: payload plus optional absolute expiration instant. -/
structure CacheEntry where
  payload : Payload
  expiry : Option Nat
deriving DecidableEq, Repr

/-- The world the policy engine acts on: the Redis cache (association list
keyed by cache key), the MongoDB `readings` collection (insertion-ordered
list), and the current time in seconds. -/
structure SysState where
  cache : List (String × CacheEntry)
  store : List StoredDoc
  now : Nat
deriving DecidableEq, Repr

/-- A persistent-store operation attempted by a call: the effect log of the
MongoDB adapter. -/
inductive StoreOp where
  | findById (oid : String)
  | findBySensorId (sid : String)
  | insertOne (b : Body)
deriving DecidableEq, Repr

/-- Is this store operation a write? -/
def StoreOp.isInsert : StoreOp → Bool
  | .insertOne _ => true
  | _ => false

/-- Failure injection and driver-generated randomness for one call:
whether `insertOne` rejects, whether the cache `set` rejects, and the
ObjectId the MongoDB driver generates for the inserted document. -/
structure Env where
  insertFails : Bool
  setFails : Bool
  newId : String
deriving DecidableEq, Repr

/-- The Key Mapper, `const key = (id) => readings:id` (line 46). -/
def key (id : String) : String :=
  "readings:" ++ id

/-- A character a hexadecimal ObjectId string may contain. -/
def hexChar (c : Char) : Bool :=
  c.isDigit || ('a' ≤ c && c ≤ 'f') || ('A' ≤ c && c ≤ 'F')

/-- Whether `new ObjectId(id)` succeeds: exactly on a 24-character hex string. -/
def isValidObjectId (s : String) : Bool :=
  s.data.length == 24 && s.data.all hexChar

/-- Lines 49–57: `getFromMongo(id)` — try `findOne({ _id: new ObjectId(id) })`;
if constructing the ObjectId throws (invalid format), fall back to
`findOne({ sensorId: id })`.  Returns the found document (if any) together
with the log of store lookups performed. -/
def getFromMongo (id : String) (store : List StoredDoc) :
    Option StoredDoc × List StoreOp :=
  if isValidObjectId id then
    (store.find? (fun d => d._id == id), [.findById id])
  else
    (store.find? (fun d => d.sensorId == some id), [.findBySensorId id])

/-- Is a cache entry live at time `now`?  Redis hides a key whose time-to-live
has elapsed. -/
def entryLive (e : CacheEntry) (now : Nat) : Bool :=
  match e.expiry with
  | none => true
  | some t => now < t

/-- The entry Redis currently serves for key `k`, if any (expired entries are
invisible). -/
def cacheGetEntry (s : SysState) (k : String) : Option CacheEntry :=
  match s.cache.lookup k with
  | none => none
  | some e => if entryLive e s.now then some e else none

/-- Lines 59–66: `setCacheJSON(k, value, ttlSec)` — serialize and `SET`,
with `EX ttlSec` only when `ttlSec` is truthy (so `0` and `null` both store
without expiration, as JavaScript's `if (ttlSec)` does). -/
def setCacheJSON (s : SysState) (k : String) (v : StoredDoc)
    (ttlSec : Option Nat) : SysState :=
  let expiry : Option Nat :=
    match ttlSec with
    | some t => if t != 0 then some (s.now + t) else none
    | none => none
  { s with cache := (k, ⟨.ok v, expiry⟩) :: s.cache.filter (fun p => p.1 != k) }

/-- Lines 67–70: `getCacheJSON(k)` — `GET` then `raw ? JSON.parse(raw) : null`.
A corrupt payload makes `JSON.parse` throw, which propagates to the caller. -/
def getCacheJSON (s : SysState) (k : String) : Except String (Option StoredDoc) :=
  match cacheGetEntry s k with
  | none => .ok none
  | some e =>
    match e.payload with
    | .ok d => .ok (some d)
    | .corrupt => .error "SyntaxError: unexpected token in JSON"

/-- The Redis delete operation, `redis.del(k)`. -/
def redisDel (s : SysState) (k : String) : SysState :=
  { s with cache := s.cache.filter (fun p => p.1 != k) }

/-- The Redis `ttl` query: `-2` when the key does not exist, `-1` when it exists
without expiration, otherwise the remaining seconds. -/
def redisTTL (s : SysState) (k : String) : Int :=
  match cacheGetEntry s k with
  | none => -2
  | some e =>
    match e.expiry with
    | none => -1
    | some t => (t : Int) - (s.now : Int)

/-- Response of the two plain read routes: strategy label, warm flag, data. -/
structure ReadResp where
  strategy : String
  warm : Bool
  data : Option StoredDoc
deriving DecidableEq, Repr

/-- Lines 76–89: `GET /v1/cache-aside/readings/:id` — try the cache; on a miss
go to MongoDB and populate the cache (no expiration) when found.  Any thrown
error is caught by the route and returned as a 500 (`Except.error`). -/
def cacheAside (id : String) (s : SysState) :
    Except String ReadResp × SysState × List StoreOp :=
  match getCacheJSON s (key id) with
  | .error e => (.error e, s, [])
  | .ok (some d) => (.ok ⟨"cache-aside", true, some d⟩, s, [])
  | .ok none =>
    match getFromMongo id s.store with
    | (some d, ops) =>
      (.ok ⟨"cache-aside", false, some d⟩, setCacheJSON s (key id) d none, ops)
    | (none, ops) => (.ok ⟨"cache-aside", false, none⟩, s, ops)

/-- Lines 95–109: `GET /v1/read-through/readings/:id` — the source duplicates
the cache-aside algorithm under a different strategy label. -/
def readThrough (id : String) (s : SysState) :
    Except String ReadResp × SysState × List StoreOp :=
  match getCacheJSON s (key id) with
  | .error e => (.error e, s, [])
  | .ok (some d) => (.ok ⟨"read-through", true, some d⟩, s, [])
  | .ok none =>
    match getFromMongo id s.store with
    | (some d, ops) =>
      (.ok ⟨"read-through", false, some d⟩, setCacheJSON s (key id) d none, ops)
    | (none, ops) => (.ok ⟨"read-through", false, none⟩, s, ops)

/-- Response of the write-through route. -/
structure WTResp where
  strategy : String
  doc : StoredDoc
deriving DecidableEq, Repr

/-- Lines 114–124: `POST /v1/write-through/readings` — `insertOne(body)`, then
synchronously populate the cache at the new id's key, then return the entity.
A rejection of either adapter call is caught by the route and returned as a
500 (`Except.error`); an insert rejection aborts before any cache write. -/
def writeThrough (body : Body) (env : Env) (s : SysState) :
    Except String WTResp × SysState × List StoreOp :=
  if env.insertFails then
    (.error "PersistenceFailure", s, [.insertOne body])
  else
    let doc := mkDoc env.newId body
    let s1 := { s with store := s.store ++ [doc] }
    if env.setFails then
      (.error "CacheSetFailure", s1, [.insertOne body])
    else
      (.ok ⟨"write-through", doc⟩, setCacheJSON s1 (key env.newId) doc none,
        [.insertOne body])

/-- Response of the write-behind route (HTTP 202). -/
structure WBResp where
  strategy : String
  queued : Bool
  doc : StoredDoc
deriving DecidableEq, Repr

/-- Lines 130–134, 149: the synchronous part of `POST /v1/write-behind/readings`
— make a provisional document under the driver-generated `tempId`, populate the
cache at the provisional key, and answer `202 { queued: true, doc }` at once.
Returns the response, the post-request state and the provisional document the
scheduled flush closure captured. -/
def writeBehind (body : Body) (tempId : String) (s : SysState) :
    WBResp × SysState × StoredDoc :=
  let doc := mkDoc tempId body
  (⟨"write-behind", true, doc⟩, setCacheJSON s (key tempId) doc none, doc)

/-- Lines 136–148: the asynchronous flush callback — strip `_id` from the
provisional document, `insertOne` the rest, delete the provisional cache key,
cache the persisted document under the real key.  If the insert rejects, the
catch only logs: the flush is abandoned, nothing is undone and nothing reaches
the original caller.  Returns the resulting state and the store-op log. -/
def flush (doc : StoredDoc) (tempId : String) (env : Env) (s : SysState) :
    SysState × List StoreOp :=
  let rest := stripId doc
  if env.insertFails then
    (s, [.insertOne rest])
  else
    let persisted := mkDoc env.newId rest
    let s1 := { s with store := s.store ++ [persisted] }
    let s2 := redisDel s1 (key tempId)
    (setCacheJSON s2 (key env.newId) persisted none, [.insertOne rest])

/-- A whole write-behind interaction: the request phase followed by the
scheduled flush.  The response is produced by the request phase alone. -/
def runWriteBehind (body : Body) (tempId : String) (env : Env) (s : SysState) :
    WBResp × SysState × List StoreOp :=
  match writeBehind body tempId s with
  | (resp, s1, doc) =>
    match flush doc tempId env s1 with
    | (s2, ops) => (resp, s2, ops)

/-- Response of the TTL route: it also reports the remaining time-to-live. -/
structure TTLResp where
  strategy : String
  warm : Bool
  ttlLeftSeconds : Int
  data : Option StoredDoc
deriving DecidableEq, Repr

/-- Lines 158–173: `GET /v1/ttl/readings/:id` — the cache-aside algorithm,
except a cache population attaches an expiration of `ttl` seconds, and the
response carries `redis.ttl` of the key queried after the population. -/
def readWithTTL (id : String) (ttl : Nat) (s : SysState) :
    Except String TTLResp × SysState × List StoreOp :=
  match getCacheJSON s (key id) with
  | .error e => (.error e, s, [])
  | .ok (some d) => (.ok ⟨"ttl", true, redisTTL s (key id), some d⟩, s, [])
  | .ok none =>
    match getFromMongo id s.store with
    | (some d, ops) =>
      let s1 := setCacheJSON s (key id) d (some ttl)
      (.ok ⟨"ttl", false, redisTTL s1 (key id), some d⟩, s1, ops)
    | (none, ops) => (.ok ⟨"ttl", false, redisTTL s (key id), none⟩, s, ops)

/-! ## Concrete sample values used by witnesses and counterexamples -/

/-- A syntactically valid ObjectId string. -/
def oidA : String := "aaaaaaaaaaaaaaaaaaaaaaaa"

/-- Another syntactically valid ObjectId string, distinct from `oidA`. -/
def oidB : String := "bbbbbbbbbbbbbbbbbbbbbbbb"

/-- A sample request body: `{ sensorId: "s1", reading: 42 }`. -/
def body0 : Body := ⟨some "s1", [("reading", 42)]⟩

/-- The empty world: cold cache, empty collection, time zero. -/
def st0 : SysState := ⟨[], [], 0⟩

/-! ## Helper lemmas -/

theorem key_injective {a b : String} (h : key a = key b) : a = b := by
  have hd := congrArg String.data h
  simp only [key, String.data_append] at hd
  exact String.ext (List.append_cancel_left hd)

theorem lookup_filter_self (k : String) (l : List (String × CacheEntry)) :
    (l.filter (fun p => p.1 != k)).lookup k = none := by
  rw [List.lookup_eq_none_iff]
  intro a ha
  have h1 : (a.1 != k) = true := (List.mem_filter.mp ha).2
  exact bne_iff_ne.mpr (Ne.symm (bne_iff_ne.mp h1))

theorem lookup_filter_none {l : List (String × CacheEntry)} {k : String}
    (p : String × CacheEntry → Bool) (h : l.lookup k = none) :
    (l.filter p).lookup k = none := by
  rw [List.lookup_eq_none_iff] at h ⊢
  intro a ha
  exact h a (List.mem_filter.mp ha).1

theorem cacheGetEntry_set_self (s : SysState) (k : String) (d : StoredDoc) :
    cacheGetEntry (setCacheJSON s k d none) k = some ⟨.ok d, none⟩ := by
  simp [cacheGetEntry, setCacheJSON, List.lookup, entryLive]

theorem cacheGetEntry_set_self_ttl (s : SysState) (k : String) (d : StoredDoc)
    (t : Nat) (ht : 0 < t) :
    cacheGetEntry (setCacheJSON s k d (some t)) k
      = some ⟨.ok d, some (s.now + t)⟩ := by
  have ht' : (t != 0) = true := by simpa using Nat.pos_iff_ne_zero.mp ht
  simp [cacheGetEntry, setCacheJSON, List.lookup, entryLive, ht', ht]

theorem getCacheJSON_of_entry {s : SysState} {k : String} {d : StoredDoc}
    {x : Option Nat} (h : cacheGetEntry s k = some ⟨.ok d, x⟩) :
    getCacheJSON s k = .ok (some d) := by
  simp [getCacheJSON, h]

theorem getFromMongo_ops_len (id : String) (store : List StoredDoc) :
    (getFromMongo id store).2.length = 1 := by
  unfold getFromMongo
  split <;> rfl

theorem getFromMongo_ops_noInsert (id : String) (store : List StoredDoc) :
    ∀ op ∈ (getFromMongo id store).2, op.isInsert = false := by
  unfold getFromMongo
  split <;> simp [StoreOp.isInsert]

theorem cacheAside_err {id : String} {s : SysState} {e : String}
    (hc : getCacheJSON s (key id) = .error e) :
    cacheAside id s = (.error e, s, []) := by
  simp [cacheAside, hc]

theorem cacheAside_hit {id : String} {s : SysState} {d : StoredDoc}
    (hc : getCacheJSON s (key id) = .ok (some d)) :
    cacheAside id s = (.ok ⟨"cache-aside", true, some d⟩, s, []) := by
  simp [cacheAside, hc]

theorem cacheAside_miss_found {id : String} {s : SysState} {d : StoredDoc}
    {ops : List StoreOp} (hc : getCacheJSON s (key id) = .ok none)
    (hm : getFromMongo id s.store = (some d, ops)) :
    cacheAside id s
      = (.ok ⟨"cache-aside", false, some d⟩, setCacheJSON s (key id) d none, ops) := by
  simp [cacheAside, hc, hm]

theorem cacheAside_miss_absent {id : String} {s : SysState}
    {ops : List StoreOp} (hc : getCacheJSON s (key id) = .ok none)
    (hm : getFromMongo id s.store = (none, ops)) :
    cacheAside id s = (.ok ⟨"cache-aside", false, none⟩, s, ops) := by
  simp [cacheAside, hc, hm]

theorem readThrough_err {id : String} {s : SysState} {e : String}
    (hc : getCacheJSON s (key id) = .error e) :
    readThrough id s = (.error e, s, []) := by
  simp [readThrough, hc]

theorem readThrough_hit {id : String} {s : SysState} {d : StoredDoc}
    (hc : getCacheJSON s (key id) = .ok (some d)) :
    readThrough id s = (.ok ⟨"read-through", true, some d⟩, s, []) := by
  simp [readThrough, hc]

theorem readThrough_miss_found {id : String} {s : SysState} {d : StoredDoc}
    {ops : List StoreOp} (hc : getCacheJSON s (key id) = .ok none)
    (hm : getFromMongo id s.store = (some d, ops)) :
    readThrough id s
      = (.ok ⟨"read-through", false, some d⟩, setCacheJSON s (key id) d none, ops) := by
  simp [readThrough, hc, hm]

theorem readThrough_miss_absent {id : String} {s : SysState}
    {ops : List StoreOp} (hc : getCacheJSON s (key id) = .ok none)
    (hm : getFromMongo id s.store = (none, ops)) :
    readThrough id s = (.ok ⟨"read-through", false, none⟩, s, ops) := by
  simp [readThrough, hc, hm]

/-- The entity (or absence) a read route answers with. -/
def readData : Except String ReadResp → Option StoredDoc
  | .ok r => r.data
  | .error _ => none

/-- The warm flag a read route answers with (`none` on a 500 error). -/
def readWarm : Except String ReadResp → Option Bool
  | .ok r => some r.warm
  | .error _ => none

/-- A sample stored document with a valid ObjectId. -/
def docA : StoredDoc := ⟨oidA, some "s1", [("reading", 42)]⟩

/-- Warm world: `docA` is both in the store and cached under its key. -/
def stWarm : SysState := ⟨[(key oidA, ⟨.ok docA, none⟩)], [docA], 0⟩

/-- Cold world: `docA` is in the store, the cache is empty. -/
def stCold : SysState := ⟨[], [docA], 0⟩

/-! ## Claims -/

/-- C1: write-through sequencing — a failed persistent insert aborts the call
with an error and leaves the whole state (in particular the cache) unchanged;
a cache-populate failure after a successful insert surfaces an error while the
inserted record remains in the store and the cache is unchanged; the entity is
returned exactly when both the insert and the cache populate succeed. -/
theorem c1_writeThrough_sequencing (body : Body) (env : Env) (s : SysState) :
    (env.insertFails = true →
      writeThrough body env s = (.error "PersistenceFailure", s, [.insertOne body])) ∧
    (env.insertFails = false → env.setFails = true →
      writeThrough body env s
        = (.error "CacheSetFailure",
           { s with store := s.store ++ [mkDoc env.newId body] },
           [.insertOne body]) ∧
      (writeThrough body env s).2.1.cache = s.cache) ∧
    (env.insertFails = false → env.setFails = false →
      writeThrough body env s
        = (.ok ⟨"write-through", mkDoc env.newId body⟩,
           setCacheJSON { s with store := s.store ++ [mkDoc env.newId body] }
             (key env.newId) (mkDoc env.newId body) none,
           [.insertOne body])) ∧
    ((writeThrough body env s).1.isOk = true ↔
      env.insertFails = false ∧ env.setFails = false) := by
  obtain ⟨i, f, n⟩ := env
  cases i <;> cases f <;> simp [writeThrough, Except.isOk, Except.toBool]

/-- Witness for C1 at concrete inputs: all three outcomes exercised. -/
theorem c1_writeThrough_sequencing_witness :
    writeThrough body0 ⟨true, false, oidA⟩ st0
      = (.error "PersistenceFailure", st0, [.insertOne body0]) ∧
    writeThrough body0 ⟨false, true, oidA⟩ st0
      = (.error "CacheSetFailure", { st0 with store := [mkDoc oidA body0] },
         [.insertOne body0]) ∧
    writeThrough body0 ⟨false, false, oidA⟩ st0
      = (.ok ⟨"write-through", mkDoc oidA body0⟩,
         setCacheJSON { st0 with store := [mkDoc oidA body0] } (key oidA)
           (mkDoc oidA body0) none,
         [.insertOne body0]) :=
  ⟨(c1_writeThrough_sequencing body0 ⟨true, false, oidA⟩ st0).1 rfl,
   ((c1_writeThrough_sequencing body0 ⟨false, true, oidA⟩ st0).2.1 rfl rfl).1,
   (c1_writeThrough_sequencing body0 ⟨false, false, oidA⟩ st0).2.2.1 rfl rfl⟩

/-- C2: cache-aside frame — every call logs at most one persistent-store
operation, none of them a write, and leaves the store component untouched; a
warm hit performs no store operation at all and leaves the whole state
unchanged. -/
theorem c2_cacheAside_store_frame (id : String) (s : SysState) :
    (cacheAside id s).2.2.length ≤ 1 ∧
    (∀ op ∈ (cacheAside id s).2.2, op.isInsert = false) ∧
    (cacheAside id s).2.1.store = s.store ∧
    (∀ d, getCacheJSON s (key id) = .ok (some d) →
      (cacheAside id s).2.2 = [] ∧ (cacheAside id s).2.1 = s) := by
  cases hc : getCacheJSON s (key id) with
  | error e =>
    rw [cacheAside_err hc]
    exact ⟨by simp, by simp, rfl, fun d hd => by simp at hd⟩
  | ok od =>
    cases od with
    | some d0 =>
      rw [cacheAside_hit hc]
      exact ⟨by simp, by simp, rfl, fun d hd => ⟨rfl, rfl⟩⟩
    | none =>
      rcases hm : getFromMongo id s.store with ⟨fd, ops⟩
      have hlen : ops.length = 1 := by
        have h := getFromMongo_ops_len id s.store
        rw [hm] at h
        exact h
      have hins : ∀ op ∈ ops, op.isInsert = false := by
        have h := getFromMongo_ops_noInsert id s.store
        rw [hm] at h
        exact h
      cases fd with
      | some d =>
        rw [cacheAside_miss_found hc hm]
        exact ⟨by simp [hlen], hins, by simp [setCacheJSON],
          fun d' hd => by simp at hd⟩
      | none =>
        rw [cacheAside_miss_absent hc hm]
        exact ⟨by simp [hlen], hins, rfl,
          fun d' hd => by simp at hd⟩

/-- Witness for C2: a warm read of `oidA` performs zero store operations and
leaves the state unchanged. -/
theorem c2_cacheAside_store_frame_witness :
    (cacheAside oidA stWarm).2.2 = [] ∧ (cacheAside oidA stWarm).2.1 = stWarm :=
  (c2_cacheAside_store_frame oidA stWarm).2.2.2 docA rfl

/-- C9: the read-through route returns the same entity (or absence), the same
warm flag, and the same final state and store-operation log as the cache-aside
route, on every identifier and every state. -/
theorem c9_readThrough_equiv_cacheAside (id : String) (s : SysState) :
    readData (readThrough id s).1 = readData (cacheAside id s).1 ∧
    readWarm (readThrough id s).1 = readWarm (cacheAside id s).1 ∧
    (readThrough id s).2 = (cacheAside id s).2 := by
  cases hc : getCacheJSON s (key id) with
  | error e =>
    rw [cacheAside_err hc, readThrough_err hc]
    exact ⟨rfl, rfl, rfl⟩
  | ok od =>
    cases od with
    | some d =>
      rw [cacheAside_hit hc, readThrough_hit hc]
      exact ⟨rfl, rfl, rfl⟩
    | none =>
      rcases hm : getFromMongo id s.store with ⟨fd, ops⟩
      cases fd with
      | some d =>
        rw [cacheAside_miss_found hc hm, readThrough_miss_found hc hm]
        exact ⟨rfl, rfl, rfl⟩
      | none =>
        rw [cacheAside_miss_absent hc hm, readThrough_miss_absent hc hm]
        exact ⟨rfl, rfl, rfl⟩

/-- C10: a syntactically valid ObjectId string that matches no stored
document's `_id` makes `getFromMongo` return absent having attempted only the
primary lookup; the `sensorId` fallback is ever attempted only for strings
that are not valid ObjectIds. -/
theorem c10_getFromMongo_primary (id : String) (store : List StoredDoc)
    (hv : isValidObjectId id = true)
    (hno : ∀ d ∈ store, d._id ≠ id) :
    getFromMongo id store = (none, [.findById id]) ∧
    (∀ (j : String) (st : List StoredDoc),
      StoreOp.findBySensorId j ∈ (getFromMongo j st).2 →
        isValidObjectId j = false) := by
  constructor
  · have hfind : store.find? (fun d => d._id == id) = none := by
      rw [List.find?_eq_none]
      intro d hd
      simpa using hno d hd
    simp [getFromMongo, hv, hfind]
  · intro j st hmem
    cases hjv : isValidObjectId j with
    | false => rfl
    | true =>
      simp [getFromMongo, hjv] at hmem

/-- Witness for C10: `oidA` is valid, absent from a store holding only a
document with id `oidB`, and the lookup stops at the primary probe. -/
theorem c10_getFromMongo_primary_witness :
    getFromMongo oidA [⟨oidB, some "x", []⟩] = (none, [.findById oidA]) :=
  (c10_getFromMongo_primary oidA [⟨oidB, some "x", []⟩] rfl
    (by intro d hd; simp at hd; subst hd; decide)).1

/-- C8: cache-aside contract — a hit returns the cached entity with
`warm = true`; a miss looks the entity up in the store, caches it with no
expiration and returns it with `warm = false` when found, and returns absent
with `warm = false` otherwise; and after a cold read that found the entity,
the immediately following read of the same id is a hit returning the identical
entity and changing nothing. -/
theorem c8_cacheAside_contract (id : String) (s : SysState) :
    (∀ d, getCacheJSON s (key id) = .ok (some d) →
      cacheAside id s = (.ok ⟨"cache-aside", true, some d⟩, s, [])) ∧
    (∀ d ops, getCacheJSON s (key id) = .ok none →
      getFromMongo id s.store = (some d, ops) →
      cacheAside id s
        = (.ok ⟨"cache-aside", false, some d⟩, setCacheJSON s (key id) d none, ops) ∧
      cacheGetEntry (setCacheJSON s (key id) d none) (key id) = some ⟨.ok d, none⟩) ∧
    (∀ ops, getCacheJSON s (key id) = .ok none →
      getFromMongo id s.store = (none, ops) →
      cacheAside id s = (.ok ⟨"cache-aside", false, none⟩, s, ops)) ∧
    (∀ d, getCacheJSON s (key id) = .ok none →
      cacheAside id (setCacheJSON s (key id) d none)
        = (.ok ⟨"cache-aside", true, some d⟩, setCacheJSON s (key id) d none, [])) := by
  refine ⟨fun d hd => cacheAside_hit hd,
    fun d ops hc hm =>
      ⟨cacheAside_miss_found hc hm, cacheGetEntry_set_self s (key id) d⟩,
    fun ops hc hm => cacheAside_miss_absent hc hm,
    fun d _ => ?_⟩
  exact cacheAside_hit (getCacheJSON_of_entry (cacheGetEntry_set_self s (key id) d))

/-- Witness for C8: a cold read of `oidA` misses, fetches `docA` from the
store, caches it; the immediately following read is warm and identical. -/
theorem c8_cacheAside_contract_witness :
    cacheAside oidA stCold
      = (.ok ⟨"cache-aside", false, some docA⟩,
         setCacheJSON stCold (key oidA) docA none, [.findById oidA]) ∧
    cacheAside oidA (setCacheJSON stCold (key oidA) docA none)
      = (.ok ⟨"cache-aside", true, some docA⟩,
         setCacheJSON stCold (key oidA) docA none, []) :=
  ⟨((c8_cacheAside_contract oidA stCold).2.1 docA [.findById oidA] rfl rfl).1,
   (c8_cacheAside_contract oidA stCold).2.2.2 docA rfl⟩

/-- A world whose cache holds a corrupt payload under `key "x"` while the
store holds a document with `sensorId = "x"` (so a fall-through would have
found it). -/
def sBad : SysState := ⟨[(key "x", ⟨.corrupt, none⟩)], [⟨oidA, some "x", []⟩], 0⟩

/-- Counterexample to C3 as stated: with a corrupt cached payload under the
derived key, the cache-aside call does not fall through to the store (its
store-operation log is empty, even though the store holds a matching
document); it returns a fatal `JSON.parse` error to the caller. -/
theorem c3_corrupt_counterexample :
    cacheGetEntry sBad (key "x") = some ⟨.corrupt, none⟩ ∧
    (getFromMongo "x" sBad.store).1 = some ⟨oidA, some "x", []⟩ ∧
    cacheAside "x" sBad
      = (.error "SyntaxError: unexpected token in JSON", sBad, []) :=
  ⟨rfl, rfl, rfl⟩

/-- C3 amended: on every read path (cache-aside, read-through, TTL), a cached
payload at the derived key that is not valid serialized JSON makes the call
abort with a fatal error surfaced to the caller; the persistent store is never
consulted and the state is unchanged. -/
theorem c3_corrupt_is_fatal (id : String) (s : SysState) (e : CacheEntry)
    (hc : cacheGetEntry s (key id) = some e) (hp : e.payload = .corrupt) :
    cacheAside id s
      = (.error "SyntaxError: unexpected token in JSON", s, []) ∧
    readThrough id s
      = (.error "SyntaxError: unexpected token in JSON", s, []) ∧
    (∀ ttl, readWithTTL id ttl s
      = (.error "SyntaxError: unexpected token in JSON", s, [])) := by
  have hg : getCacheJSON s (key id)
      = .error "SyntaxError: unexpected token in JSON" := by
    simp [getCacheJSON, hc, hp]
  exact ⟨cacheAside_err hg, readThrough_err hg,
    fun ttl => by simp [readWithTTL, hg]⟩

/-- Witness for the amended C3 at the concrete corrupt world `sBad`. -/
theorem c3_corrupt_is_fatal_witness :
    readThrough "x" sBad
      = (.error "SyntaxError: unexpected token in JSON", sBad, []) ∧
    readWithTTL "x" 60 sBad
      = (.error "SyntaxError: unexpected token in JSON", sBad, []) :=
  ⟨(c3_corrupt_is_fatal "x" sBad ⟨.corrupt, none⟩ rfl rfl).2.1,
   (c3_corrupt_is_fatal "x" sBad ⟨.corrupt, none⟩ rfl rfl).2.2 60⟩

theorem setCacheJSON_now (s : SysState) (k : String) (v : StoredDoc)
    (o : Option Nat) : (setCacheJSON s k v o).now = s.now := rfl

theorem lookup_filter_and (k k2 : String) (l : List (String × CacheEntry)) :
    (l.filter (fun a => a.1 != k2 && a.1 != k)).lookup k = none := by
  rw [List.lookup_eq_none_iff]
  intro a ha
  have h2 := (List.mem_filter.mp ha).2
  rw [Bool.and_eq_true] at h2
  exact bne_iff_ne.mpr (Ne.symm (bne_iff_ne.mp h2.2))

theorem lookup_after_swap (s2 : SysState) (tempId newId : String)
    (persisted : StoredDoc) (hkey : (key tempId == key newId) = false) :
    cacheGetEntry
      (setCacheJSON (redisDel s2 (key tempId)) (key newId) persisted none)
      (key tempId) = none := by
  simp [cacheGetEntry, setCacheJSON, redisDel, List.lookup, hkey,
    lookup_filter_and]

/-- C4: write-behind flush failure — when the flush's persistent insert
rejects, the flush ends with the pre-flush state intact (the provisional
cache entry is not rolled back and still resolves) after exactly one insert
attempt (no retry), and the caller's response is the same accepted response a
successful flush would have produced: the failure is never surfaced. -/
theorem c4_writeBehind_flush_abandoned (body : Body) (tempId : String)
    (env : Env) (s : SysState) (hf : env.insertFails = true) :
    runWriteBehind body tempId env s
      = (⟨"write-behind", true, mkDoc tempId body⟩,
         setCacheJSON s (key tempId) (mkDoc tempId body) none,
         [.insertOne body]) ∧
    cacheGetEntry (runWriteBehind body tempId env s).2.1 (key tempId)
      = some ⟨.ok (mkDoc tempId body), none⟩ ∧
    (runWriteBehind body tempId env s).1
      = (runWriteBehind body tempId ⟨false, env.setFails, env.newId⟩ s).1 := by
  have h1 : runWriteBehind body tempId env s
      = (⟨"write-behind", true, mkDoc tempId body⟩,
         setCacheJSON s (key tempId) (mkDoc tempId body) none,
         [.insertOne body]) := by
    simp [runWriteBehind, writeBehind, flush, hf, stripId, mkDoc]
  refine ⟨h1, ?_, ?_⟩
  · rw [h1]
    exact cacheGetEntry_set_self s (key tempId) (mkDoc tempId body)
  · rw [h1]
    simp [runWriteBehind, writeBehind, flush]

/-- Witness for C4: a failing flush after a write-behind of `body0` leaves the
provisional entry under `key oidA` in place and the state otherwise as the
request phase left it. -/
theorem c4_writeBehind_flush_abandoned_witness :
    runWriteBehind body0 oidA ⟨true, false, oidB⟩ st0
      = (⟨"write-behind", true, mkDoc oidA body0⟩,
         setCacheJSON st0 (key oidA) (mkDoc oidA body0) none,
         [.insertOne body0]) ∧
    cacheGetEntry (runWriteBehind body0 oidA ⟨true, false, oidB⟩ st0).2.1
      (key oidA) = some ⟨.ok (mkDoc oidA body0), none⟩ :=
  ⟨(c4_writeBehind_flush_abandoned body0 oidA ⟨true, false, oidB⟩ st0 rfl).1,
   (c4_writeBehind_flush_abandoned body0 oidA ⟨true, false, oidB⟩ st0 rfl).2.1⟩

/-- C5: write-behind happy path — the call answers `queued = true` with the
provisional entity after caching it under the provisional key; after a
successful flush whose driver-generated real id differs from the provisional
one, the body (identifier stripped) is in the store under the real id, the
provisional key no longer resolves, and the real key holds the persisted
entity. -/
theorem c5_writeBehind_success (body : Body) (tempId : String) (env : Env)
    (s : SysState) (hok : env.insertFails = false) (hne : env.newId ≠ tempId) :
    (writeBehind body tempId s).1 = ⟨"write-behind", true, mkDoc tempId body⟩ ∧
    cacheGetEntry (writeBehind body tempId s).2.1 (key tempId)
      = some ⟨.ok (mkDoc tempId body), none⟩ ∧
    (runWriteBehind body tempId env s).2.1.store
      = s.store ++ [mkDoc env.newId body] ∧
    cacheGetEntry (runWriteBehind body tempId env s).2.1 (key tempId) = none ∧
    cacheGetEntry (runWriteBehind body tempId env s).2.1 (key env.newId)
      = some ⟨.ok (mkDoc env.newId body), none⟩ := by
  obtain ⟨i, f, n⟩ := env
  have hok' : i = false := hok
  have hne' : n ≠ tempId := hne
  subst hok'
  have hkey : (key tempId == key n) = false :=
    beq_eq_false_iff_ne.mpr fun h => hne' (key_injective h).symm
  refine ⟨rfl, cacheGetEntry_set_self s (key tempId) (mkDoc tempId body),
    rfl, ?_, ?_⟩
  · exact lookup_after_swap _ tempId n _ hkey
  · exact cacheGetEntry_set_self _ (key n) _

/-- Witness for C5 at concrete inputs: provisional id `oidA`, real id `oidB`. -/
theorem c5_writeBehind_success_witness :
    (runWriteBehind body0 oidA ⟨false, false, oidB⟩ st0).2.1.store
      = [mkDoc oidB body0] ∧
    cacheGetEntry (runWriteBehind body0 oidA ⟨false, false, oidB⟩ st0).2.1
      (key oidA) = none ∧
    cacheGetEntry (runWriteBehind body0 oidA ⟨false, false, oidB⟩ st0).2.1
      (key oidB) = some ⟨.ok (mkDoc oidB body0), none⟩ :=
  ⟨(c5_writeBehind_success body0 oidA ⟨false, false, oidB⟩ st0 rfl
      (by decide)).2.2.1,
   (c5_writeBehind_success body0 oidA ⟨false, false, oidB⟩ st0 rfl
      (by decide)).2.2.2.1,
   (c5_writeBehind_success body0 oidA ⟨false, false, oidB⟩ st0 rfl
      (by decide)).2.2.2.2⟩

/-- Counterexample to C6 as stated: the provisional identifier is a plain
ObjectId from the same space the store assigns from — in a run where the
driver-generated insert id equals the provisional id `oidA`, the store ends
up assigning exactly the provisional identifier, so the provisional id is not
distinct from every id the store will ever assign, and both ids share the one
ObjectId format (no sentinel range or type tag). -/
theorem c6_provisionalId_counterexample :
    (writeBehind body0 oidA st0).2.2._id = oidA ∧
    (runWriteBehind body0 oidA ⟨false, false, oidA⟩ st0).2.1.store
      = [mkDoc oidA body0] ∧
    isValidObjectId oidA = true ∧
    isValidObjectId (writeBehind body0 oidA st0).2.2._id = true :=
  ⟨rfl, rfl, rfl, rfl⟩

/-- C6 amended: provisional and store-assigned identifiers are drawn from one
and the same ObjectId space with no structural distinguisher — any value can
occur both as the provisional identifier of a write-behind call and as the
identifier the store assigns to a write-through insert. -/
theorem c6_provisionalId_shared_space (v : String) (body : Body) (s : SysState) :
    (writeBehind body v s).2.2._id = v ∧
    (writeThrough body ⟨false, false, v⟩ s).2.1.store
      = s.store ++ [mkDoc v body] ∧
    (mkDoc v body)._id = v :=
  ⟨rfl, rfl, rfl⟩

/-- C7: TTL population — a TTL read that misses the cache and finds the
entity in the store populates the cache with an expiration `ttl` seconds from
now and reports a remaining time-to-live equal to `ttl`, hence strictly
positive and at most `ttl`. -/
theorem c7_ttl_population (id : String) (ttl : Nat) (s : SysState)
    (d : StoredDoc) (ops : List StoreOp) (httl : 0 < ttl)
    (hmiss : getCacheJSON s (key id) = .ok none)
    (hfound : getFromMongo id s.store = (some d, ops)) :
    readWithTTL id ttl s
      = (.ok ⟨"ttl", false, (ttl : Int), some d⟩,
         setCacheJSON s (key id) d (some ttl), ops) ∧
    cacheGetEntry (setCacheJSON s (key id) d (some ttl)) (key id)
      = some ⟨.ok d, some (s.now + ttl)⟩ ∧
    (0 : Int) < (ttl : Int) := by
  have hent := cacheGetEntry_set_self_ttl s (key id) d ttl httl
  have httlq : redisTTL (setCacheJSON s (key id) d (some ttl)) (key id)
      = (ttl : Int) := by
    simp only [redisTTL, hent, setCacheJSON_now]
    push_cast
    omega
  refine ⟨?_, hent, by exact_mod_cast httl⟩
  simp [readWithTTL, hmiss, hfound, httlq]

/-- Witness for C7: a cold TTL read of `oidA` with a 60-second TTL. -/
theorem c7_ttl_population_witness :
    readWithTTL oidA 60 stCold
      = (.ok ⟨"ttl", false, (60 : Int), some docA⟩,
         setCacheJSON stCold (key oidA) docA (some 60), [.findById oidA]) ∧
    cacheGetEntry (setCacheJSON stCold (key oidA) docA (some 60)) (key oidA)
      = some ⟨.ok docA, some 60⟩ :=
  ⟨(c7_ttl_population oidA 60 stCold docA [.findById oidA] (by decide)
      rfl rfl).1,
   (c7_ttl_population oidA 60 stCold docA [.findById oidA] (by decide)
      rfl rfl).2.1⟩
